import Mathlib

/-!
Verification development for the Phoenix EA trading admission-control engine
and its frontend client library. The risk/session engine itself ships no
implementation under the repository sources (only configuration, API
documentation and frontend consumers), so its data model and operations are
modelled from the specification; the API client and WebSocket client are
embedded from the frontend library source.
-/

namespace PhoenixEA

/-- Modelled from the spec: `RiskLimits` (§3) — the account's configured risk
limits, absent from the shipped sources (only the environment defaults
`MAX_RISK_PER_TRADE`, `MAX_DAILY_RISK`, `DAILY_STOP_R`, `MAX_CONCURRENT_R`
appear in the integration guide). All fields non-negative except
`daily_stop_r`, which is a negative floor. -/
structure RiskLimits where
  max_risk_per_trade_pct : ℚ
  max_daily_risk_pct : ℚ
  daily_stop_r : ℚ
  max_concurrent_r : ℚ
  drawdown_threshold_r : ℚ
deriving DecidableEq, Repr

/-- Modelled from the spec: `OpenCommitment` (§3) — one entry per trade
currently holding budget. -/
structure OpenCommitment where
  id : Nat
  symbol : String
  risk_r : ℚ
  opened_at : Nat
deriving DecidableEq, Repr

/-- Modelled from the spec: `RiskLedger` (§3) — the mutable risk-budget state
of an account, absent from the shipped sources. -/
structure RiskLedger where
  daily_realized_pnl_r : ℚ
  daily_realized_pnl_dollars : ℚ
  daily_trade_count : Nat
  open_commitments : List OpenCommitment
  trailing_pnl_r_window : List (Nat × ℚ)
deriving DecidableEq, Repr

/-- Modelled from the spec: the ledger at account/day start (§3 lifecycle). -/
def emptyLedger : RiskLedger :=
  { daily_realized_pnl_r := 0
    daily_realized_pnl_dollars := 0
    daily_trade_count := 0
    open_commitments := []
    trailing_pnl_r_window := [] }

/-- Modelled from the spec: derived quantity
`active_risk_r = sum(open_commitments.risk_r)` (§3). -/
def active_risk_r (l : RiskLedger) : ℚ :=
  (l.open_commitments.map (fun c => c.risk_r)).sum

/-- Modelled from the spec: derived quantity
`daily_risk_used_r = -min(0, daily_realized_pnl_r) + active_risk_r` (§3). -/
def daily_risk_used_r (l : RiskLedger) : ℚ :=
  -(min 0 l.daily_realized_pnl_r) + active_risk_r l

/-- Modelled from the spec: derived quantity
`drawdown_r = sum of negative pnl_r in trailing window` (§3). -/
def drawdown_r (l : RiskLedger) : ℚ :=
  ((l.trailing_pnl_r_window.map Prod.snd).filter (fun x => decide (x < 0))).sum

/-- Modelled from the spec:
`risk_reduction_active = drawdown_r <= -limits.drawdown_threshold_r` (§3). -/
def risk_reduction_active (limits : RiskLimits) (l : RiskLedger) : Bool :=
  decide (drawdown_r l ≤ -limits.drawdown_threshold_r)

/-- Modelled from the spec:
`can_trade = daily_realized_pnl_r > limits.daily_stop_r` (§3). -/
def can_trade (limits : RiskLimits) (l : RiskLedger) : Bool :=
  decide (l.daily_realized_pnl_r > limits.daily_stop_r)

/-- Modelled from the spec: reservation failure reason (§4.3). -/
inductive ReserveError where
  | insufficientBudget
deriving DecidableEq, Repr

/-- Modelled from the spec: release failure reason (§4.3). -/
inductive ReleaseError where
  | unknownCommitment
deriving DecidableEq, Repr

/-- Modelled from the spec: `reserve` (§4.3) — adds the commitment to
`open_commitments` and increments `daily_trade_count`; fails with
`InsufficientBudget` if doing so would violate `max_concurrent_r` or
`max_daily_risk_pct`, in which case the ledger is returned unchanged. -/
def reserve (limits : RiskLimits) (l : RiskLedger) (c : OpenCommitment) :
    RiskLedger × Option ReserveError :=
  if active_risk_r l + c.risk_r > limits.max_concurrent_r ∨
      daily_risk_used_r l + c.risk_r > limits.max_daily_risk_pct then
    (l, some ReserveError.insufficientBudget)
  else
    ({ l with
        open_commitments := c :: l.open_commitments
        daily_trade_count := l.daily_trade_count + 1 }, none)

/-- Modelled from the spec: `release` (§4.3) — removes the commitment (fails
with `UnknownCommitment` if absent), adds the realized pnl to the daily
totals, and appends `(now, realized_pnl_r)` to the trailing-pnl window. -/
def release (l : RiskLedger) (id : Nat) (realized_pnl_r realized_pnl_dollars : ℚ)
    (now : Nat) : RiskLedger × Option ReleaseError :=
  if l.open_commitments.any (fun c => c.id == id) then
    ({ l with
        open_commitments := l.open_commitments.filter (fun c => c.id != id)
        daily_realized_pnl_r := l.daily_realized_pnl_r + realized_pnl_r
        daily_realized_pnl_dollars := l.daily_realized_pnl_dollars + realized_pnl_dollars
        trailing_pnl_r_window := l.trailing_pnl_r_window ++ [(now, realized_pnl_r)] }, none)
  else
    (l, some ReleaseError.unknownCommitment)

/-- Modelled from the spec: `rollover` (§4.3) — resets daily counters, leaves
open commitments untouched, trims the trailing window to the configured
drawdown horizon (entries with `timestamp >= boundary - horizon` survive). -/
def rollover (horizon boundary : Nat) (l : RiskLedger) : RiskLedger :=
  { l with
      daily_realized_pnl_r := 0
      daily_realized_pnl_dollars := 0
      daily_trade_count := 0
      trailing_pnl_r_window :=
        l.trailing_pnl_r_window.filter (fun e => decide (boundary ≤ e.1 + horizon)) }

/-- Modelled from the spec: `GateDecision` (§4.4). -/
inductive GateDecision where
  | deniedDailyStopHit
  | deniedConcurrentRiskExceeded
  | deniedDailyRiskExceeded
  | approved (effective_risk_r : ℚ)
deriving DecidableEq, Repr

/-- Modelled from the spec:
`effective_risk_r = proposed_risk_r * (0.5 if risk_reduction_active else 1.0)`
(§4.4). -/
def effective_risk (limits : RiskLimits) (l : RiskLedger) (proposed : ℚ) : ℚ :=
  proposed * (if risk_reduction_active limits l then 1 / 2 else 1)

/-- Modelled from the spec: the Risk Gate `evaluate` (§4.4), checking the
daily stop, then concurrent risk, then daily risk, in that order. -/
def evaluate (limits : RiskLimits) (l : RiskLedger) (proposed : ℚ) : GateDecision :=
  if can_trade limits l = false then
    GateDecision.deniedDailyStopHit
  else if active_risk_r l + effective_risk limits l proposed > limits.max_concurrent_r then
    GateDecision.deniedConcurrentRiskExceeded
  else if daily_risk_used_r l + effective_risk limits l proposed > limits.max_daily_risk_pct then
    GateDecision.deniedDailyRiskExceeded
  else
    GateDecision.approved (effective_risk limits l proposed)

/-- Modelled from the spec: the Admission Controller's risk path (§4.5 steps
2–4) — evaluate the gate, then reserve the approved effective risk, returning
a concurrent-risk denial if the reservation itself fails. -/
def proposeStep (limits : RiskLimits) (l : RiskLedger) (symbol : String)
    (proposed : ℚ) (id now : Nat) : GateDecision × RiskLedger :=
  match evaluate limits l proposed with
  | GateDecision.approved eff =>
    match reserve limits l { id := id, symbol := symbol, risk_r := eff, opened_at := now } with
    | (l2, none) => (GateDecision.approved eff, l2)
    | (_, some _) => (GateDecision.deniedConcurrentRiskExceeded, l)
  | d => (d, l)

/-- Modelled from the spec: one interleaved ledger operation (§4.3, §8). -/
inductive LedgerOp where
  | reserveOp (c : OpenCommitment)
  | releaseOp (id : Nat) (realized_pnl_r realized_pnl_dollars : ℚ) (now : Nat)
deriving DecidableEq, Repr

/-- Modelled from the spec: apply one operation to the ledger; a failing
operation leaves the ledger unchanged (§4.3). -/
def applyOp (limits : RiskLimits) (l : RiskLedger) : LedgerOp → RiskLedger
  | LedgerOp.reserveOp c => (reserve limits l c).1
  | LedgerOp.releaseOp id pr pd now => (release l id pr pd now).1

/-- Modelled from the spec: run an interleaved sequence of reserve/release
operations from the empty ledger (§8, concurrent-risk invariant). -/
def runOps (limits : RiskLimits) (ops : List LedgerOp) : RiskLedger :=
  ops.foldl (applyOp limits) emptyLedger

/-- A reserve operation proposes a non-negative amount of risk (spec glossary:
`risk_r` is the amount risked on the trade). -/
def opOK : LedgerOp → Prop
  | LedgerOp.reserveOp c => 0 ≤ c.risk_r
  | LedgerOp.releaseOp _ _ _ _ => True

/-- The limits matching the integration guide's environment defaults
(`MAX_RISK_PER_TRADE=1.0`, `MAX_DAILY_RISK=3.0`, `DAILY_STOP_R=-10.0`,
`MAX_CONCURRENT_R=2.0`) and the documented drawdown threshold of 6 R. -/
def defaultLimits : RiskLimits :=
  { max_risk_per_trade_pct := 1
    max_daily_risk_pct := 3
    daily_stop_r := -10
    max_concurrent_r := 2
    drawdown_threshold_r := 6 }

/-- Modelled from the spec: `TimeWindow` (§3) — a recurring local-time
interval tied to a timezone. Instants are minutes since an arbitrary UTC
epoch; `start_local` and `end_local` are minutes of the local day; the
timezone is its offset rule, a function from UTC instant to offset minutes
(true timezone-rule conversion, not a fixed offset, §4.1). -/
structure TimeWindow where
  start_local : Int
  end_local : Int
  zoneOffset : Int → Int
  name : String

/-- Modelled from the spec: the local wall-clock time-of-day (minutes of the
local day) obtained by converting a UTC instant with the window's timezone
rule (§4.1). -/
def localTod (w : TimeWindow) (t : Int) : Int :=
  (t + w.zoneOffset t) % 1440

/-- Modelled from the spec: the Time Window Evaluator `contains` (§4.1) —
`window.start_local <= local_time < window.end_local`, half-open. -/
def containsW (w : TimeWindow) (t : Int) : Bool :=
  decide (w.start_local ≤ localTod w t ∧ localTod w t < w.end_local)

/-- Modelled from the spec: `SessionConfig` (§3) — a mapping from symbol to
its ordered sequence of windows. -/
def SessionConfig : Type := List (String × List TimeWindow)

/-- Modelled from the spec: look up a symbol's window list (unknown symbols
have no windows configured). -/
def windowsFor (cfg : SessionConfig) (symbol : String) : List TimeWindow :=
  match cfg.find? (fun p => p.1 == symbol) with
  | some p => p.2
  | none => []

/-- Modelled from the spec: the Session Gate `isTradable` (§4.2) — an empty
window list disables session filtering; otherwise the instant must fall in at
least one window. -/
def isTradable (cfg : SessionConfig) (symbol : String) (t : Int) : Bool :=
  let ws := windowsFor cfg symbol
  if ws.isEmpty then true else ws.any (fun w => containsW w t)

/-- A fixed-offset zone rule (used to build concrete test configurations). -/
def fixedZone (offset : Int) : Int → Int := fun _ => offset

/-- A London-like zone rule for concrete tests: offset 0 (GMT) before the
spring transition instant and +60 (BST) from it on. The transition is placed
at minute 1500 (01:00 UTC of day 1 of the local timeline). -/
def londonSpringZone : Int → Int := fun t => if t < 1500 then 0 else 60

/-- A configuration whose only symbol has an empty window list (session
filtering disabled, per the configuration guide's `session_windows: []`). -/
def emptyWindowsConfig : SessionConfig := [("SYNTH", [])]

/-- The London 08:00–16:00 window of the dual-session configuration, with a
fixed offset standing in for its zone on one calendar day. -/
def londonWindow : TimeWindow :=
  { start_local := 480, end_local := 960, zoneOffset := fixedZone 0,
    name := "London Session" }

/-- The New York 08:00–17:00 window of the dual-session configuration, with a
fixed offset standing in for its zone on one calendar day. -/
def newYorkWindow : TimeWindow :=
  { start_local := 480, end_local := 1020, zoneOffset := fixedZone (-240),
    name := "New York Session" }

/-- A 08:00–16:00 window in the London-like zone with a spring DST
transition inside the modelled timeline. -/
def dstDayWindow : TimeWindow :=
  { start_local := 480, end_local := 960, zoneOffset := londonSpringZone,
    name := "London Session" }

/-- The documented dual-session configuration for XAUUSD: a 08:00–16:00
window in one zone and a 08:00–17:00 window in another. -/
def dualSessionConfig : SessionConfig := [("XAUUSD", [londonWindow, newYorkWindow])]

/-- The state of the frontend `ApiClient` visible to callers: its base URL
and optional bearer token (src/unnamed/part_004 lines 17–28). -/
structure ApiClientState where
  baseUrl : String
  authToken : Option String
deriving DecidableEq, Repr

/-- An HTTP response as the client observes it: `ok`, `status`,
`statusText` and a body. -/
structure HttpResponse where
  ok : Bool
  status : Nat
  statusText : String
  body : String
deriving DecidableEq, Repr

/-- What one call to `ApiClient.request` produces: the result (parsed body or
thrown error message), the list of URLs fetched during the call, and the
client state after the call. -/
structure RequestOutcome where
  result : Except String String
  fetchCalls : List String
  clientAfter : ApiClientState
deriving Repr

/-- The headers `ApiClient.request` sends: `Content-Type` always, plus the
`Authorization` bearer header when a token is set
(src/unnamed/part_004 lines 37–45). -/
def buildHeaders (c : ApiClientState) : List (String × String) :=
  [("Content-Type", "application/json")] ++
    (match c.authToken with
     | some t => [("Authorization", "Bearer " ++ t)]
     | none => [])

/-- The method `ApiClient.request` (src/unnamed/part_004 lines 31–57): build the URL
from the base URL and endpoint, issue one fetch with the headers, throw
`API request failed: {status} {statusText}` when the response is not ok,
otherwise return the body. The fetch behaviour is a parameter. -/
def request (c : ApiClientState) (endpoint : String)
    (fetch : String → List (String × String) → HttpResponse) : RequestOutcome :=
  let url := c.baseUrl ++ endpoint
  let response := fetch url (buildHeaders c)
  if response.ok then
    { result := Except.ok response.body, fetchCalls := [url], clientAfter := c }
  else
    { result := Except.error ("API request failed: " ++ toString response.status
        ++ " " ++ response.statusText)
      fetchCalls := [url]
      clientAfter := c }

/-- WebSocket ready states, as the browser constants the client compares
against (src/unnamed/part_004 line 198). -/
inductive ReadyState where
  | CONNECTING
  | OPEN
  | CLOSING
  | CLOSED
deriving DecidableEq, Repr

/-- The state of the frontend `WebSocketClient`
(src/unnamed/part_004 lines 141–150): the socket (`none` models `null`) and
the reconnect counter. -/
structure WSClient where
  ws : Option ReadyState
  reconnectAttempts : Nat
deriving DecidableEq, Repr

/-- The constant `maxReconnectAttempts` (src/unnamed/part_004 line 145). -/
def maxReconnectAttempts : Nat := 5

/-- The constant `reconnectDelay` in milliseconds (src/unnamed/part_004 line 146). -/
def reconnectDelay : Nat := 1000

/-- The method `WebSocketClient.attemptReconnect` (src/unnamed/part_004 lines 184–195):
if fewer than `maxReconnectAttempts` attempts were made, increment the
counter and schedule a reconnect after `reconnectDelay * reconnectAttempts`
milliseconds (the incremented counter); otherwise schedule nothing. Returns
the new state and the scheduled delay, if any. -/
def attemptReconnect (c : WSClient) : WSClient × Option Nat :=
  if c.reconnectAttempts < maxReconnectAttempts then
    ({ c with reconnectAttempts := c.reconnectAttempts + 1 },
      some (reconnectDelay * (c.reconnectAttempts + 1)))
  else
    (c, none)

/-- The `onopen` handler (src/unnamed/part_004 lines 156–159): a successful
open resets `reconnectAttempts` to 0. -/
def handleOpen (c : WSClient) : WSClient :=
  { c with ws := some ReadyState.OPEN, reconnectAttempts := 0 }

/-- The method `WebSocketClient.disconnect` (src/unnamed/part_004 lines 205–210): close
the socket and set it to `null`. -/
def disconnect (c : WSClient) : WSClient :=
  { c with ws := none }

/-- The method `WebSocketClient.send` (src/unnamed/part_004 lines 197–203): sends only
when the socket exists and its ready state is `OPEN`; otherwise warns and
sends nothing (`none`). -/
def send (c : WSClient) (data : String) : Option String :=
  match c.ws with
  | some ReadyState.OPEN => some data
  | _ => none

/-- The delays scheduled by `n` successive unexpected closes with no
intervening successful open: each close fires `onclose`, which calls
`attemptReconnect` (src/unnamed/part_004 lines 170–173, 184–195). -/
def closeSchedules : Nat → WSClient → List Nat
  | 0, _ => []
  | n + 1, c =>
    match attemptReconnect c with
    | (c2, some d) => d :: closeSchedules n c2
    | (_, none) => []

/-- Field names declared by the frontend `RiskMetrics` TypeScript interface
(src/unnamed/part_005 lines 57–69). -/
def riskMetricsInterfaceFields : List String :=
  ["daily_pnl", "daily_pnl_r", "trade_count", "active_trades_count",
   "max_risk_per_trade", "max_daily_risk", "daily_stop_r", "max_concurrent_r",
   "drawdown_threshold_r", "risk_utilization", "can_trade"]

/-- Field names the `RiskMetrics` component reads from the snapshot it
renders (src/frontend/app/components/RiskMetrics.tsx lines 27–163). -/
def riskMetricsComponentFields : List String :=
  ["risk_utilization", "daily_pnl_r", "can_trade", "daily_pnl", "daily_stop_r",
   "active_trades_count", "active_risk_r", "max_risk_per_trade",
   "max_concurrent_r", "max_daily_risk", "drawdown_threshold_r",
   "risk_reduction_active", "trade_count"]

/-- The field names the spec requires of every `RiskLedgerView` snapshot
(§6). -/
def specRequiredViewFields : List String :=
  ["daily_pnl_r", "daily_pnl_dollars", "trade_count", "active_trades_count",
   "active_risk_r", "max_risk_per_trade", "max_daily_risk", "daily_stop_r",
   "max_concurrent_r", "drawdown_threshold_r", "risk_utilization",
   "risk_reduction_active", "can_trade"]

/-- The spec's required field list with the daily dollar figure under the
name the code actually uses (`daily_pnl` rather than `daily_pnl_dollars`). -/
def amendedRequiredViewFields : List String :=
  ["daily_pnl_r", "daily_pnl", "trade_count", "active_trades_count",
   "active_risk_r", "max_risk_per_trade", "max_daily_risk", "daily_stop_r",
   "max_concurrent_r", "drawdown_threshold_r", "risk_utilization",
   "risk_reduction_active", "can_trade"]

instance decOpOK : (op : LedgerOp) → Decidable (opOK op)
  | LedgerOp.reserveOp c => inferInstanceAs (Decidable (0 ≤ c.risk_r))
  | LedgerOp.releaseOp _ _ _ _ => inferInstanceAs (Decidable True)

/-- A ledger is well-formed for given limits when all open commitments hold
non-negative risk and the active risk is within the concurrent limit. -/
def ledgerOK (limits : RiskLimits) (l : RiskLedger) : Prop :=
  (∀ c ∈ l.open_commitments, 0 ≤ c.risk_r) ∧
    active_risk_r l ≤ limits.max_concurrent_r

lemma applyOp_ledgerOK (limits : RiskLimits) (l : RiskLedger) (op : LedgerOp)
    (hop : opOK op) (h : ledgerOK limits l) :
    ledgerOK limits (applyOp limits l op) := by
  cases op with
  | reserveOp c =>
    simp only [applyOp, reserve]
    split
    · exact h
    · rename_i hcond
      push_neg at hcond
      refine ⟨?_, ?_⟩
      · intro c2 hc2
        simp only [List.mem_cons] at hc2
        rcases hc2 with rfl | hc2
        · exact hop
        · exact h.1 c2 hc2
      · simp only [active_risk_r, List.map_cons, List.sum_cons]
        have h1 := hcond.1
        simp only [active_risk_r] at h1
        linarith
  | releaseOp id pr pd now =>
    simp only [applyOp, release]
    split
    · refine ⟨?_, ?_⟩
      · intro c2 hc2
        simp only [List.mem_filter] at hc2
        exact h.1 c2 hc2.1
      · refine le_trans ?_ h.2
        simp only [active_risk_r]
        refine List.Sublist.sum_le_sum ((List.filter_sublist _).map _) ?_
        intro x hx
        simp only [List.mem_map] at hx
        obtain ⟨c2, hc2, rfl⟩ := hx
        exact h.1 c2 hc2
    · exact h

lemma foldl_ledgerOK (limits : RiskLimits) :
    ∀ (ops : List LedgerOp) (l : RiskLedger), ledgerOK limits l →
      (∀ op ∈ ops, opOK op) →
      ledgerOK limits (ops.foldl (applyOp limits) l) := by
  intro ops
  induction ops with
  | nil => intro l h _; exact h
  | cons op rest ih =>
    intro l h hops
    simp only [List.foldl_cons]
    exact ih _ (applyOp_ledgerOK limits l op (hops op (List.mem_cons_self _ _)) h)
      (fun o ho => hops o (List.mem_cons_of_mem _ ho))

lemma windowsFor_dual :
    windowsFor dualSessionConfig "XAUUSD" = [londonWindow, newYorkWindow] := rfl

/-- Claim C4: for a symbol with a non-empty window list, `isTradable` is true
iff at least one configured window contains the instant; with exactly two
windows the tradable set is the boolean OR of the two windows' own sets; and
in the documented dual-session overlap an instant that is 13:00 in the first
zone and 09:00 in the second is tradable because both windows contain it. -/
theorem session_or_semantics :
    (∀ (cfg : SessionConfig) (sym : String) (t : Int),
      windowsFor cfg sym ≠ [] →
      (isTradable cfg sym t = true ↔
        ∃ w ∈ windowsFor cfg sym, containsW w t = true)) ∧
    (∀ (cfg : SessionConfig) (sym : String) (w1 w2 : TimeWindow) (t : Int),
      windowsFor cfg sym = [w1, w2] →
      isTradable cfg sym t = (containsW w1 t || containsW w2 t)) ∧
    (isTradable dualSessionConfig "XAUUSD" 780 = true ∧
      containsW londonWindow 780 = true ∧ containsW newYorkWindow 780 = true ∧
      localTod londonWindow 780 = 780 ∧ localTod newYorkWindow 780 = 540) := by
  refine ⟨?_, ?_, by decide⟩
  · intro cfg sym t h
    rcases List.exists_cons_of_ne_nil h with ⟨a, as, hw⟩
    simp [isTradable, hw, List.any_eq_true]
  · intro cfg sym w1 w2 t hw
    simp [isTradable, hw]

/-- Witness for C4: both universally quantified parts applied to the
documented dual-session configuration at instant 780 (13:00 in the first
zone, 09:00 in the second). -/
theorem session_or_semantics_witness :
    (isTradable dualSessionConfig "XAUUSD" 780 = true ↔
      ∃ w ∈ windowsFor dualSessionConfig "XAUUSD", containsW w 780 = true) ∧
    isTradable dualSessionConfig "XAUUSD" 780 =
      (containsW londonWindow 780 || containsW newYorkWindow 780) :=
  ⟨session_or_semantics.1 dualSessionConfig "XAUUSD" 780
      (by rw [windowsFor_dual]; exact List.cons_ne_nil _ _),
    session_or_semantics.2.1 dualSessionConfig "XAUUSD" londonWindow newYorkWindow 780
      windowsFor_dual⟩

/-- Claim C5: a symbol whose configured window list is empty is tradable at
every instant (session filtering disabled for that symbol). -/
theorem empty_windows_always_tradable (cfg : SessionConfig) (sym : String) (t : Int) :
    windowsFor cfg sym = [] → isTradable cfg sym t = true := by
  intro h
  simp [isTradable, h]

/-- Witness for C5: a symbol configured with `session_windows: []` and an
unconfigured symbol are both always tradable. -/
theorem empty_windows_always_tradable_witness :
    isTradable emptyWindowsConfig "SYNTH" 90 = true ∧
    isTradable emptyWindowsConfig "EURUSD" 90 = true :=
  ⟨empty_windows_always_tradable emptyWindowsConfig "SYNTH" 90 rfl,
    empty_windows_always_tradable emptyWindowsConfig "EURUSD" 90 rfl⟩

/-- Claim C6: `contains` converts the instant with the window's timezone rule
and holds iff `start_local <= local_time < end_local` (half-open); on a
London-like zone with a DST transition the result flips exactly at local
08:00 and 16:00 on both the pre-transition day (UTC 480/960) and the
transition day (UTC 1860/2340, where local 08:00 and 16:00 have moved by the
offset change while the local boundaries stay 08:00 and 16:00). -/
theorem contains_halfopen_characterization :
    (∀ (w : TimeWindow) (t : Int),
      containsW w t = true ↔
        (w.start_local ≤ localTod w t ∧ localTod w t < w.end_local)) ∧
    (containsW dstDayWindow 479 = false ∧ containsW dstDayWindow 480 = true ∧
      containsW dstDayWindow 959 = true ∧ containsW dstDayWindow 960 = false ∧
      containsW dstDayWindow 1859 = false ∧ containsW dstDayWindow 1860 = true ∧
      containsW dstDayWindow 2339 = true ∧ containsW dstDayWindow 2340 = false ∧
      localTod dstDayWindow 1860 = 480 ∧ localTod dstDayWindow 2340 = 960) := by
  refine ⟨fun w t => by simp [containsW], by decide⟩

/-- Claim C7: `reserve` is atomic on denial — when adding the commitment
would violate `max_concurrent_r` or `max_daily_risk_pct` it fails with
`InsufficientBudget` and returns the ledger exactly unchanged; otherwise it
adds the commitment to `open_commitments` and increments
`daily_trade_count`. -/
theorem reserve_atomicity (limits : RiskLimits) (l : RiskLedger) (c : OpenCommitment) :
    ((active_risk_r l + c.risk_r > limits.max_concurrent_r ∨
        daily_risk_used_r l + c.risk_r > limits.max_daily_risk_pct) →
      reserve limits l c = (l, some ReserveError.insufficientBudget)) ∧
    (¬(active_risk_r l + c.risk_r > limits.max_concurrent_r ∨
        daily_risk_used_r l + c.risk_r > limits.max_daily_risk_pct) →
      reserve limits l c =
        ({ l with
            open_commitments := c :: l.open_commitments
            daily_trade_count := l.daily_trade_count + 1 }, none)) := by
  constructor
  · intro h
    simp only [reserve]
    rw [if_pos h]
  · intro h
    simp only [reserve]
    rw [if_neg h]

/-- Witness for C7: with the default limits, reserving 3 R on the empty
ledger is denied and leaves the ledger unchanged; reserving 1 R succeeds and
adds the commitment while incrementing the trade count. -/
theorem reserve_atomicity_witness :
    reserve defaultLimits emptyLedger
        { id := 1, symbol := "XAUUSD", risk_r := 3, opened_at := 0 } =
      (emptyLedger, some ReserveError.insufficientBudget) ∧
    reserve defaultLimits emptyLedger
        { id := 1, symbol := "XAUUSD", risk_r := 1, opened_at := 0 } =
      ({ emptyLedger with
          open_commitments := [{ id := 1, symbol := "XAUUSD", risk_r := 1, opened_at := 0 }]
          daily_trade_count := 1 }, none) :=
  ⟨(reserve_atomicity defaultLimits emptyLedger
      { id := 1, symbol := "XAUUSD", risk_r := 3, opened_at := 0 }).1
      (by norm_num [active_risk_r, emptyLedger, defaultLimits]),
    (reserve_atomicity defaultLimits emptyLedger
      { id := 1, symbol := "XAUUSD", risk_r := 1, opened_at := 0 }).2
      (by norm_num [active_risk_r, daily_risk_used_r, emptyLedger, defaultLimits])⟩

/-- Claim C8 counterexample: the spec's required snapshot field
`daily_pnl_dollars` appears neither in the declared `RiskMetrics` TypeScript
interface nor among the fields the monitoring component reads — the code
exposes the daily dollar figure as `daily_pnl`. -/
theorem view_shape_counterexample :
    "daily_pnl_dollars" ∈ specRequiredViewFields ∧
    riskMetricsInterfaceFields.contains "daily_pnl_dollars" = false ∧
    riskMetricsComponentFields.contains "daily_pnl_dollars" = false := by decide

/-- Claim C8 (amended): the snapshot consumed by the monitoring component
contains all thirteen required fields once the daily dollar figure is read
under the name `daily_pnl` rather than `daily_pnl_dollars`. -/
theorem view_shape_amended :
    amendedRequiredViewFields.all
      (fun f => riskMetricsComponentFields.contains f) = true := by decide

/-- A client configured with the default base URL and no auth token, as the
exported `apiClient` instance starts out. -/
def demoClient : ApiClientState :=
  { baseUrl := "http://localhost:8000/api/v1", authToken := none }

/-- A fetch behaviour that answers every request with 404 Not Found. -/
def notFoundFetch : String → List (String × String) → HttpResponse :=
  fun _ _ => { ok := false, status := 404, statusText := "Not Found", body := "" }

/-- Claim C9: every call to `ApiClient.request` issues exactly one fetch, at
the base URL plus the endpoint; a response with `ok = false` makes the method
throw `API request failed: {status} {statusText}` without retrying; and the
caller-visible client state is returned unchanged. -/
theorem api_request_behaviour (c : ApiClientState) (endpoint : String)
    (fetch : String → List (String × String) → HttpResponse) :
    (request c endpoint fetch).fetchCalls = [c.baseUrl ++ endpoint] ∧
    (request c endpoint fetch).clientAfter = c ∧
    ((fetch (c.baseUrl ++ endpoint) (buildHeaders c)).ok = false →
      (request c endpoint fetch).result =
        Except.error ("API request failed: "
          ++ toString (fetch (c.baseUrl ++ endpoint) (buildHeaders c)).status
          ++ " " ++ (fetch (c.baseUrl ++ endpoint) (buildHeaders c)).statusText)) := by
  refine ⟨?_, ?_, ?_⟩
  · simp only [request]
    split <;> rfl
  · simp only [request]
    split <;> rfl
  · intro h
    simp only [request]
    rw [if_neg (by simp [h])]

/-- Witness for C9: a 404 response on the default client makes `request`
throw the formatted error, with one fetch issued and the client unchanged. -/
theorem api_request_behaviour_witness :
    (request demoClient "/signals/active" notFoundFetch).result =
      Except.error ("API request failed: " ++ toString (404 : Nat) ++ " " ++ "Not Found") :=
  (api_request_behaviour demoClient "/signals/active" notFoundFetch).2.2 rfl

lemma closeSchedules_eq (n : Nat) :
    ∀ (a : Nat) (ws : Option ReadyState),
      closeSchedules n { ws := ws, reconnectAttempts := a } =
        (List.range (min n (maxReconnectAttempts - a))).map
          (fun i => reconnectDelay * (a + i + 1)) := by
  induction n with
  | zero => intro a ws; simp [closeSchedules]
  | succ n ih =>
    intro a ws
    by_cases h : a < maxReconnectAttempts
    · have h5 : maxReconnectAttempts - a = (maxReconnectAttempts - (a + 1)) + 1 := by omega
      rw [closeSchedules]
      simp only [attemptReconnect, if_pos h]
      rw [ih (a + 1) ws, h5, Nat.succ_min_succ, List.range_succ_eq_map]
      simp only [List.map_cons, List.map_map]
      have hfun : ((fun i => reconnectDelay * (a + i + 1)) ∘ Nat.succ) =
          (fun i => reconnectDelay * (a + 1 + i + 1)) := by
        funext i
        simp only [Function.comp_apply, Nat.succ_eq_add_one]
        ring
      rw [hfun]
    · rw [closeSchedules]
      simp only [attemptReconnect, if_neg h]
      have h0 : maxReconnectAttempts - a = 0 := by omega
      simp [h0]

/-- Claim C10: after unexpected closes the client schedules at most
`maxReconnectAttempts = 5` reconnection attempts, the k-th delayed by
`reconnectDelay * k` milliseconds (1000, 2000, ..., 5000), and stops
scheduling once the counter reaches 5; a successful open resets the counter
to 0; and after an explicit `disconnect` the socket is `null`, so `send`
sends nothing. -/
theorem ws_reconnect_bound :
    (∀ (n : Nat) (ws : Option ReadyState),
      closeSchedules n { ws := ws, reconnectAttempts := 0 } =
        (List.range (min n maxReconnectAttempts)).map
          (fun i => reconnectDelay * (i + 1))) ∧
    (∀ (n : Nat) (ws : Option ReadyState),
      (closeSchedules n { ws := ws, reconnectAttempts := 0 }).length ≤
        maxReconnectAttempts) ∧
    closeSchedules 7 { ws := none, reconnectAttempts := 0 } =
      [1000, 2000, 3000, 4000, 5000] ∧
    (∀ c : WSClient, (handleOpen c).reconnectAttempts = 0) ∧
    (∀ (c : WSClient) (d : String), send (disconnect c) d = none) ∧
    maxReconnectAttempts = 5 ∧ reconnectDelay = 1000 := by
  have hmain : ∀ (n : Nat) (ws : Option ReadyState),
      closeSchedules n { ws := ws, reconnectAttempts := 0 } =
        (List.range (min n maxReconnectAttempts)).map
          (fun i => reconnectDelay * (i + 1)) := by
    intro n ws
    have h := closeSchedules_eq n 0 ws
    simpa using h
  refine ⟨hmain, ?_, by decide, fun c => rfl, fun c d => rfl, rfl, rfl⟩
  intro n ws
  rw [hmain]
  simp only [List.length_map, List.length_range]
  exact min_le_right _ _

lemma evaluate_approved_eq (limits : RiskLimits) (l : RiskLedger) (p e : ℚ)
    (h : evaluate limits l p = GateDecision.approved e) :
    e = effective_risk limits l p := by
  unfold evaluate at h
  split at h
  · cases h
  · split at h
    · cases h
    · split at h
      · cases h
      · injection h with h2
        exact h2.symm

/-- Claim C2: `risk_reduction_active` holds exactly when the trailing
window's summed negative pnl is at or below `-drawdown_threshold_r`; every
`Approved` decision carries
`effective_risk_r = proposed_risk_r * (0.5 if risk_reduction_active else 1.0)`
computed from the same snapshot — exactly half the proposal while the
throttle is active and the full proposal once the window recovers, with no
manual reset. -/
theorem drawdown_throttle (limits : RiskLimits) (l : RiskLedger) (p e : ℚ) :
    (risk_reduction_active limits l = true ↔
      drawdown_r l ≤ -limits.drawdown_threshold_r) ∧
    (evaluate limits l p = GateDecision.approved e →
      e = p * (if risk_reduction_active limits l then 1 / 2 else 1)) ∧
    (risk_reduction_active limits l = true →
      evaluate limits l p = GateDecision.approved e → e = p * (1 / 2)) ∧
    (risk_reduction_active limits l = false →
      evaluate limits l p = GateDecision.approved e → e = p) := by
  refine ⟨by simp [risk_reduction_active], ?_, ?_, ?_⟩
  · intro h
    rw [evaluate_approved_eq limits l p e h]
    rfl
  · intro hra h
    rw [evaluate_approved_eq limits l p e h]
    simp [effective_risk, hra]
  · intro hra h
    rw [evaluate_approved_eq limits l p e h]
    simp [effective_risk, hra]

/-- A ledger whose trailing window holds a 7 R loss, past the default 6 R
drawdown threshold. -/
def throttledLedger : RiskLedger :=
  { emptyLedger with trailing_pnl_r_window := [(0, -7)] }

/-- A ledger whose trailing window holds only a 3 R loss, inside the default
6 R drawdown threshold. -/
def recoveredLedger : RiskLedger :=
  { emptyLedger with trailing_pnl_r_window := [(0, -3)] }

/-- Witness for C2: with the default limits, a 7 R trailing loss activates
the throttle and a 1 R proposal is approved at exactly 0.5 R, while a 3 R
trailing loss leaves the throttle off and the same proposal is approved at
the full 1 R. -/
theorem drawdown_throttle_witness :
    risk_reduction_active defaultLimits throttledLedger = true ∧
    evaluate defaultLimits throttledLedger 1 = GateDecision.approved (1 / 2) ∧
    ((1 : ℚ) / 2 = 1 * (1 / 2)) ∧
    risk_reduction_active defaultLimits recoveredLedger = false ∧
    evaluate defaultLimits recoveredLedger 1 = GateDecision.approved 1 ∧
    ((1 : ℚ) = 1) := by
  have h1 : risk_reduction_active defaultLimits throttledLedger = true := by
    norm_num [risk_reduction_active, drawdown_r, throttledLedger, emptyLedger,
      defaultLimits]
  have h2 : evaluate defaultLimits throttledLedger 1 = GateDecision.approved (1 / 2) := by
    norm_num [evaluate, can_trade, risk_reduction_active, drawdown_r, effective_risk,
      active_risk_r, daily_risk_used_r, throttledLedger, emptyLedger, defaultLimits]
  have h4 : risk_reduction_active defaultLimits recoveredLedger = false := by
    norm_num [risk_reduction_active, drawdown_r, recoveredLedger, emptyLedger,
      defaultLimits]
  have h5 : evaluate defaultLimits recoveredLedger 1 = GateDecision.approved 1 := by
    norm_num [evaluate, can_trade, risk_reduction_active, drawdown_r, effective_risk,
      active_risk_r, daily_risk_used_r, recoveredLedger, emptyLedger, defaultLimits]
  exact ⟨h1, h2,
    (drawdown_throttle defaultLimits throttledLedger 1 (1 / 2)).2.2.1 h1 h2,
    h4, h5,
    (drawdown_throttle defaultLimits recoveredLedger 1 1).2.2.2 h4 h5⟩

/-- A ledger that has hit the default daily stop (`-10` R realized) with one
trade still open. -/
def stoppedLedger : RiskLedger :=
  { daily_realized_pnl_r := -10, daily_realized_pnl_dollars := -1000,
    daily_trade_count := 4,
    open_commitments := [{ id := 1, symbol := "XAUUSD", risk_r := 1, opened_at := 0 }],
    trailing_pnl_r_window := [(0, -10)] }

/-- The ledger `stoppedLedger` after its open trade closes at +15 R: the daily realized
pnl is back above the stop without any rollover. -/
def releasedLedger : RiskLedger :=
  { daily_realized_pnl_r := 5, daily_realized_pnl_dollars := 500,
    daily_trade_count := 4, open_commitments := [],
    trailing_pnl_r_window := [(0, -10), (5, 15)] }

/-- Claim C3 counterexample: `stoppedLedger` is at the daily stop and
`evaluate` denies with `DailyStopHit`, but after a `release` of +15 R —
with no rollover — a subsequent `evaluate` is `Approved`, so the denial does
not persist until the next rollover as the claim states. -/
theorem daily_stop_counterexample :
    stoppedLedger.daily_realized_pnl_r ≤ defaultLimits.daily_stop_r ∧
    evaluate defaultLimits stoppedLedger 1 = GateDecision.deniedDailyStopHit ∧
    release stoppedLedger 1 15 1500 5 = (releasedLedger, none) ∧
    evaluate defaultLimits releasedLedger 1 = GateDecision.approved (1 / 2) := by
  refine ⟨by norm_num [stoppedLedger, defaultLimits], ?_, ?_, ?_⟩
  · norm_num [evaluate, can_trade, stoppedLedger, defaultLimits]
  · norm_num [release, stoppedLedger, releasedLedger]
  · norm_num [evaluate, can_trade, risk_reduction_active, drawdown_r, effective_risk,
      active_risk_r, daily_risk_used_r, releasedLedger, defaultLimits]

/-- Claim C3 (amended): `can_trade` is exactly
`daily_realized_pnl_r > daily_stop_r` — determined solely by the daily
realized pnl, not concurrent-risk usage — and while
`daily_realized_pnl_r <= daily_stop_r` holds, every `evaluate` call returns
`Denied(DailyStopHit)`; `reserve` never changes `daily_realized_pnl_r`, so
the denial persists until a rollover resets the counters or a `release`
raises the daily realized pnl back above the stop. -/
theorem daily_stop_denial (limits : RiskLimits) (l l2 : RiskLedger) (p : ℚ)
    (c : OpenCommitment) :
    (l.daily_realized_pnl_r ≤ limits.daily_stop_r →
      evaluate limits l p = GateDecision.deniedDailyStopHit) ∧
    ((reserve limits l c).1.daily_realized_pnl_r = l.daily_realized_pnl_r) ∧
    ((rollover 20160 20160 l).daily_realized_pnl_r = 0) ∧
    (l.daily_realized_pnl_r = l2.daily_realized_pnl_r →
      can_trade limits l = can_trade limits l2) := by
  refine ⟨?_, ?_, rfl, ?_⟩
  · intro h
    have hc : can_trade limits l = false := by
      simp only [can_trade, decide_eq_false_iff_not]
      exact not_lt.mpr h
    simp [evaluate, hc]
  · simp only [reserve]
    split <;> rfl
  · intro h
    simp [can_trade, h]

/-- Witness for C3: the amended theorem applied to the stopped ledger — its
`evaluate` call is denied with `DailyStopHit`. -/
theorem daily_stop_denial_witness :
    evaluate defaultLimits stoppedLedger 1 = GateDecision.deniedDailyStopHit :=
  (daily_stop_denial defaultLimits stoppedLedger stoppedLedger 1
    { id := 2, symbol := "XAUUSD", risk_r := 1, opened_at := 0 }).1
    (by norm_num [stoppedLedger, defaultLimits])

/-- The ledger after the scenario's first approved 1 R reservation. -/
def ledger1 : RiskLedger :=
  { daily_realized_pnl_r := 0, daily_realized_pnl_dollars := 0,
    daily_trade_count := 1,
    open_commitments := [{ id := 1, symbol := "XAUUSD", risk_r := 1, opened_at := 0 }],
    trailing_pnl_r_window := [] }

/-- The ledger after the scenario's second approved 1 R reservation. -/
def ledger2 : RiskLedger :=
  { daily_realized_pnl_r := 0, daily_realized_pnl_dollars := 0,
    daily_trade_count := 2,
    open_commitments := [{ id := 2, symbol := "XAUUSD", risk_r := 1, opened_at := 1 },
      { id := 1, symbol := "XAUUSD", risk_r := 1, opened_at := 0 }],
    trailing_pnl_r_window := [] }

/-- Claim C1: for every interleaved reserve/release sequence from the empty
ledger (commitments risking non-negative amounts, limits with a non-negative
concurrent cap), `active_risk_r` never exceeds `max_concurrent_r`; and in
the concrete scenario with the default limits
(`max_concurrent_r = 2`, `daily_stop_r = -10`) two sequential 1 R proposals
are both approved while a third is denied with `ConcurrentRiskExceeded`. -/
theorem concurrent_risk_invariant :
    (∀ (limits : RiskLimits) (ops : List LedgerOp),
      0 ≤ limits.max_concurrent_r → (∀ op ∈ ops, opOK op) →
      active_risk_r (runOps limits ops) ≤ limits.max_concurrent_r) ∧
    ((proposeStep defaultLimits emptyLedger "XAUUSD" 1 1 0).1 =
        GateDecision.approved 1 ∧
      (proposeStep defaultLimits
          (proposeStep defaultLimits emptyLedger "XAUUSD" 1 1 0).2
          "XAUUSD" 1 2 1).1 = GateDecision.approved 1 ∧
      (proposeStep defaultLimits
          (proposeStep defaultLimits
            (proposeStep defaultLimits emptyLedger "XAUUSD" 1 1 0).2
            "XAUUSD" 1 2 1).2
          "XAUUSD" 1 3 2).1 = GateDecision.deniedConcurrentRiskExceeded) := by
  constructor
  · intro limits ops h0 hops
    have h := foldl_ledgerOK limits ops emptyLedger
      ⟨fun c hc => absurd hc (List.not_mem_nil c),
        by simpa [active_risk_r, emptyLedger] using h0⟩ hops
    exact h.2
  · have e1 : evaluate defaultLimits emptyLedger 1 = GateDecision.approved 1 := by
      norm_num [evaluate, can_trade, risk_reduction_active, drawdown_r, effective_risk,
        active_risk_r, daily_risk_used_r, emptyLedger, defaultLimits]
    have r1 : reserve defaultLimits emptyLedger
        { id := 1, symbol := "XAUUSD", risk_r := 1, opened_at := 0 } =
        (ledger1, none) := by
      norm_num [reserve, active_risk_r, daily_risk_used_r, emptyLedger, defaultLimits,
        ledger1]
    have s1 : proposeStep defaultLimits emptyLedger "XAUUSD" 1 1 0 =
        (GateDecision.approved 1, ledger1) := by
      simp [proposeStep, e1, r1]
    have e2 : evaluate defaultLimits ledger1 1 = GateDecision.approved 1 := by
      norm_num [evaluate, can_trade, risk_reduction_active, drawdown_r, effective_risk,
        active_risk_r, daily_risk_used_r, ledger1, defaultLimits]
    have r2 : reserve defaultLimits ledger1
        { id := 2, symbol := "XAUUSD", risk_r := 1, opened_at := 1 } =
        (ledger2, none) := by
      norm_num [reserve, active_risk_r, daily_risk_used_r, ledger1, defaultLimits,
        ledger2]
    have s2 : proposeStep defaultLimits ledger1 "XAUUSD" 1 2 1 =
        (GateDecision.approved 1, ledger2) := by
      simp [proposeStep, e2, r2]
    have e3 : evaluate defaultLimits ledger2 1 =
        GateDecision.deniedConcurrentRiskExceeded := by
      norm_num [evaluate, can_trade, risk_reduction_active, drawdown_r, effective_risk,
        active_risk_r, daily_risk_used_r, ledger2, defaultLimits]
    have s3 : proposeStep defaultLimits ledger2 "XAUUSD" 1 3 2 =
        (GateDecision.deniedConcurrentRiskExceeded, ledger2) := by
      simp [proposeStep, e3]
    simp [s1, s2, s3]

/-- The operation sequence used to witness the concurrent-risk invariant. -/
def c1ops : List LedgerOp :=
  [LedgerOp.reserveOp { id := 1, symbol := "XAUUSD", risk_r := 1, opened_at := 0 },
   LedgerOp.releaseOp 1 (1 / 2) 50 5]

/-- Witness for C1: the invariant applied to a concrete reserve-then-release
sequence under the default limits. -/
theorem concurrent_risk_invariant_witness :
    active_risk_r (runOps defaultLimits c1ops) ≤ defaultLimits.max_concurrent_r :=
  concurrent_risk_invariant.1 defaultLimits c1ops
    (by norm_num [defaultLimits])
    (by
      intro op hop
      simp only [c1ops, List.mem_cons, List.not_mem_nil, or_false] at hop
      rcases hop with rfl | rfl
      · norm_num [opOK]
      · trivial)

end PhoenixEA
